import Mathlib

/-!
Verification development for the bkpmgt backup control plane.

The Python sources are shallowly embedded:
* JSON values (Python dicts / lists / strings as serialized by `json.dumps`)
  become the mutual inductive `Val` / `ValList` / `ValFields`.  An object's
  field list keeps Python's insertion order; `normalize_params` models
  `json.dumps(·, sort_keys=True)` by recursively sorting object keys (the
  serialization itself is injective on these canonical forms, so the stored
  TEXT column is modeled by the canonical value).
* `cryptography.fernet` encryption of a credential string `s` is modeled by
  the constructor `Val.enc s`: an opaque ciphertext, distinct from every
  plaintext `Val.str t`.
* Fallible Python code (uncaught exceptions) returns `Option`; exceptions
  that the source catches and logs are modeled by the corresponding
  "unchanged state / no event" outcome.
* Wall-clock timestamps (`datetime`) are integers (seconds); `timedelta`
  comparison becomes integer comparison.
-/

set_option linter.unusedVariables false

/-! ## JSON value model -/

mutual
inductive Val where
  | null : Val
  | bool : Bool → Val
  | num : Int → Val
  | str : String → Val
  | enc : String → Val
  | arr : ValList → Val
  | obj : ValFields → Val
deriving DecidableEq, Repr
inductive ValList where
  | nil : ValList
  | cons : Val → ValList → ValList
deriving DecidableEq, Repr
inductive ValFields where
  | nil : ValFields
  | cons : String → Val → ValFields → ValFields
deriving DecidableEq, Repr
end

/-- Python `params[k]` / `params.get(k)`: first binding of `k` (dicts have
unique keys, so "first" is exact). -/
def fieldsGet (k : String) : ValFields → Option Val
  | .nil => none
  | .cons k2 v rest => if k2 = k then some v else fieldsGet k rest

/-- Python `params[k] = v`: replace the value in place if `k` is present
(keeping its position, as Python dicts do), else append. -/
def fieldsSet (k : String) (v : Val) : ValFields → ValFields
  | .nil => .cons k v .nil
  | .cons k2 v2 rest =>
    if k2 = k then .cons k2 v rest else .cons k2 v2 (fieldsSet k v rest)

/-- Python `k in params`. -/
def fieldsHas (k : String) (fs : ValFields) : Bool :=
  (fieldsGet k fs).isSome

/-- Python `params.get(k, d)`. -/
def fieldsGetD (k : String) (fs : ValFields) (d : Val) : Val :=
  (fieldsGet k fs).getD d

/-- Python truthiness of a JSON value (`if v:`). -/
def pyTruthy : Val → Bool
  | .null => false
  | .bool b => b
  | .num n => n != 0
  | .str s => s ≠ ""
  | .enc _ => true
  | .arr .nil => false
  | .arr _ => true
  | .obj .nil => false
  | .obj _ => true

/-- `pat` is a prefix of `l`. -/
def listPrefix : List Char → List Char → Bool
  | [], _ => true
  | _ :: _, [] => false
  | c :: ps, d :: ds => c = d && listPrefix ps ds

/-- Code-point lexicographic `≤` on character lists: how Python compares
`str` keys. -/
def charListLe : List Char → List Char → Bool
  | [], _ => true
  | _ :: _, [] => false
  | a :: as2, b :: bs => if a = b then charListLe as2 bs else decide (a < b)

/-- Insert a field into a key-sorted field list (insertion sort step). -/
def insertSorted (k : String) (v : Val) : ValFields → ValFields
  | .nil => .cons k v .nil
  | .cons k2 v2 rest =>
    if charListLe k.data k2.data then .cons k v (.cons k2 v2 rest)
    else .cons k2 v2 (insertSorted k v rest)

/-- Sort a field list by key. -/
def sortFields : ValFields → ValFields
  | .nil => .nil
  | .cons k v rest => insertSorted k v (sortFields rest)

mutual
/-- `normalize_params` from `clnt/backup_utils/db_manager.py`:
`json.dumps(params, sort_keys=True)`, modeled as the canonical value with
all object keys recursively sorted (serialization is injective on these). -/
def normalize_params : Val → Val
  | .obj fs => .obj (sortFields (normFields fs))
  | .arr xs => .arr (normList xs)
  | v => v
def normFields : ValFields → ValFields
  | .nil => .nil
  | .cons k v rest => .cons k (normalize_params v) (normFields rest)
def normList : ValList → ValList
  | .nil => .nil
  | .cons v rest => .cons (normalize_params v) (normList rest)
end

/-! ## Small string / assoc-list utilities mirroring Python built-ins

These avoid the built-in `String` operations (whose implementations do not
reduce definitionally) in favor of plain recursion over `List Char`. -/

/-- Python `s.startswith(pre)`. -/
def strStartsWith (s pre : String) : Bool := listPrefix pre.data s.data

/-- Fuel-driven worker for `pyReplace`; the fuel is the input length, which
suffices because every step consumes at least one character. -/
def replaceFuel (pat repl : List Char) : Nat → List Char → List Char
  | 0, l => l
  | _ + 1, [] => []
  | n + 1, c :: rest =>
    if pat ≠ [] && listPrefix pat (c :: rest) then
      repl ++ replaceFuel pat repl n (rest.drop (pat.length - 1))
    else c :: replaceFuel pat repl n rest

/-- Python `s.replace(pat, repl)` (non-empty `pat`): replace every
(leftmost, non-overlapping) occurrence. -/
def pyReplace (s pat repl : String) : String :=
  ⟨replaceFuel pat.data repl.data s.data.length s.data⟩

/-- Fuel-driven worker for `pySplitOn`. -/
def splitOnFuel (sep : List Char) : Nat → List Char → List (List Char)
  | 0, l => [l]
  | _ + 1, [] => [[]]
  | n + 1, c :: rest =>
    if sep ≠ [] && listPrefix sep (c :: rest) then
      [] :: splitOnFuel sep n (rest.drop (sep.length - 1))
    else
      match splitOnFuel sep n rest with
      | [] => [[c]]
      | g :: gs => (c :: g) :: gs

/-- Python `s.split(sep)` for non-empty `sep`. -/
def pySplitOn (s sep : String) : List String :=
  (splitOnFuel sep.data s.data.length s.data).map (fun l => ⟨l⟩)

/-- Python `s.lower()` (ASCII inputs). -/
def pyToLower (s : String) : String := ⟨s.data.map Char.toLower⟩

/-- Python `s.strip()` (both-ends whitespace strip) on character lists. -/
def pyTrimData (l : List Char) : List Char :=
  ((l.dropWhile Char.isWhitespace).reverse.dropWhile Char.isWhitespace).reverse

/-- Auxiliary scan for `strContains`. -/
def containsAux (pat : List Char) : List Char → Bool
  | [] => listPrefix pat []
  | c :: rest => listPrefix pat (c :: rest) || containsAux pat rest

/-- Python `pat in s` (substring test). -/
def strContains (s pat : String) : Bool :=
  containsAux pat.data s.data

/-- Digit run with Python underscore grouping: `digit (digit | "_" digit)*`. -/
def digitsVal (acc : Nat) : List Char → Option Nat
  | [] => some acc
  | '_' :: c :: rest =>
    if c.isDigit then digitsVal (acc * 10 + (c.toNat - 48)) rest else none
  | c :: rest =>
    if c.isDigit then digitsVal (acc * 10 + (c.toNat - 48)) rest else none

/-- Leading-digit entry point for `digitsVal`. -/
def digitsNum : List Char → Option Nat
  | [] => none
  | c :: rest =>
    if c.isDigit then digitsVal (c.toNat - 48) rest else none

/-- Python `int(s)` on ASCII input: strip whitespace, optional sign, decimal
digits with optional single underscores between digits.  `none` models a
`ValueError`. -/
def pyIntOfStr (s : String) : Option Int :=
  match pyTrimData s.data with
  | '+' :: rest => (digitsNum rest).map Int.ofNat
  | '-' :: rest => (digitsNum rest).map (fun n => -(n : Int))
  | l => (digitsNum l).map Int.ofNat

/-- Python truthiness of an optional string (`if s:` where `s` may be None). -/
def optTruthy : Option String → Bool
  | none => false
  | some s => s ≠ ""

/-- First binding in an association list (Python `dict.get`). -/
def lookupAssoc {α : Type} (k : String) : List (String × α) → Option α
  | [] => none
  | (k2, v) :: rest => if k2 = k then some v else lookupAssoc k rest

/-- Update the first binding of `k` (no-op when absent). -/
def updAssoc {α : Type} (k : String) (f : α → α) : List (String × α) → List (String × α)
  | [] => []
  | (k2, v) :: rest =>
    if k2 = k then (k2, f v) :: rest else (k2, v) :: updAssoc k f rest

/-- Build a field list from a Lean list (notation helper for object literals;
order is the Python dict literal / insertion order). -/
def VF : List (String × Val) → ValFields
  | [] => .nil
  | (k, v) :: rest => .cons k v (VF rest)

/-! ## Agent local ledger (`clnt/backup_utils/db_manager.py`) -/

/-- Row of an operation-kind table: `(params, response, response_timestamp)`.
`params` holds the stored TEXT `normalize_params(params)` as its canonical
value; `response` holds the `json.dumps(response)` payload. -/
structure CmdRow where
  params : Val
  response : Val
  response_timestamp : Int
deriving DecidableEq, Repr

/-- Row of a `response_<kind>` table: `(response, response_timestamp)`. -/
structure RespRow where
  response : Val
  response_timestamp : Int
deriving DecidableEq, Repr

/-- Row of the `schedule_ledger` table: `(params, status)` (plus a
`created_at` default not modeled). -/
structure SchRow where
  params : Val
  status : String
deriving DecidableEq, Repr

/-- The agent's SQLite database `bkpmgt.db` after `initialize_database`:
one table per command type, one per response type, and the schedule ledger. -/
structure AgentDB where
  cmdTables : List (String × List CmdRow)
  respTables : List (String × List RespRow)
  schedule_ledger : List SchRow
deriving DecidableEq, Repr

/-- The freshly initialized database (`initialize_database`). -/
def initialDB : AgentDB where
  cmdTables :=
    [("init_local_repo", []), ("get_local_repo_snapshots", []),
     ("do_local_repo_backup", []), ("do_local_repo_restore", []),
     ("do_s3_repo_backup", []), ("do_s3_repo_restore", [])]
  respTables :=
    [("response_local_repo_snapshots", []), ("response_s3_repo_restore", []),
     ("response_local_repo_backup", []), ("response_local_repo_restore", []),
     ("response_s3_repo_backup", [])]
  schedule_ledger := []

/-- `encrypt_field(v)`: Fernet-encrypt a string.  A non-string input raises
(`AttributeError` on `.encode`), modeled by `none`. -/
def encValField : Val → Option Val
  | .str s => some (.enc s)
  | _ => none

/-- `if key in params: params[key] = encrypt_field(params[key])`. -/
def encStep (key : String) (fs : ValFields) : Option ValFields :=
  match fieldsGet key fs with
  | none => some fs
  | some v => (encValField v).map (fun e => fieldsSet key e fs)

/-- `params[key] = encrypt_field(params[key])` without a presence check
(`none` also covers the `KeyError` when the key is absent). -/
def encStepRequired (key : String) (fs : ValFields) : Option ValFields :=
  match fieldsGet key fs with
  | none => none
  | some v => (encValField v).map (fun e => fieldsSet key e fs)

/-- `if not params["aws_session_token"] == "": params[...] = encrypt_field(...)`
(the key is accessed unconditionally: `KeyError` when absent). -/
def encSessionReq (fs : ValFields) : Option ValFields :=
  match fieldsGet "aws_session_token" fs with
  | none => none
  | some v =>
    if v = .str "" then some fs
    else (encValField v).map (fun e => fieldsSet "aws_session_token" e fs)

/-- `if "aws_session_token" in params and params["aws_session_token"] != "":
params[...] = encrypt_field(...)`. -/
def encSessionOpt (fs : ValFields) : Option ValFields :=
  match fieldsGet "aws_session_token" fs with
  | none => some fs
  | some v =>
    if v = .str "" then some fs
    else (encValField v).map (fun e => fieldsSet "aws_session_token" e fs)

/-- The encryption prelude of `save_command` (runs before the `try` block, so
a raised exception aborts the whole call): encrypt `password` when present;
for `do_s3_repo_*` command types encrypt `aws_access_key_id` and
`aws_secret_access_key` unconditionally (a `KeyError` if absent) and
`aws_session_token` unless it equals `""`. -/
def encryptForSave (command_type : String) (params : ValFields) : Option ValFields := do
  let p ← encStep "password" params
  if strStartsWith command_type "do_s3_repo_" then do
    let p ← encStepRequired "aws_access_key_id" p
    let p ← encStepRequired "aws_secret_access_key" p
    encSessionReq p
  else
    pure p

/-- `save_command(command_type, params, response)`: encrypt, then insert the
`(normalize_params(params), response, timestamp)` row into the table named
after the command type unless a row with the same normalized params exists.
Database-layer failures (missing table) are caught and logged, leaving the
database unchanged; `none` models the uncaught encryption exception. -/
def save_command (command_type : String) (params : ValFields) (response : Val)
    (now : Int) (db : AgentDB) : Option AgentDB :=
  (encryptForSave command_type params).map fun p2 =>
    let table_name := pyToLower (pyReplace command_type " " "_")
    match lookupAssoc table_name db.cmdTables with
    | none => db
    | some rows =>
      let np := normalize_params (.obj p2)
      if rows.any (fun r => r.params == np) then db
      else { db with
              cmdTables :=
                updAssoc table_name (fun rs => rs ++ [⟨np, response, now⟩]) db.cmdTables }

/-- The encryption prelude of `save_scheduled_task`: each credential field is
encrypted when present, except that `aws_session_token` additionally skips
the empty string. -/
def encryptForSchtask (params : ValFields) : Option ValFields := do
  let p ← encStep "password" params
  let p ← encStep "aws_access_key_id" p
  let p ← encStep "aws_secret_access_key" p
  encSessionOpt p

/-- `save_scheduled_task(params)`: encrypt credentials, then append a
`pending` row holding `json.dumps(params)` to the schedule ledger. -/
def save_scheduled_task (params : ValFields) (db : AgentDB) : Option AgentDB :=
  (encryptForSchtask params).map fun p2 =>
    { db with schedule_ledger := db.schedule_ledger ++ [⟨.obj p2, "pending"⟩] }

/-- `update_schtask(response)`: insert `normalize_params(response)` into the
table named after `response["type"]` unless an identical response row is
already present.  A missing or non-string `type` raises before the `try`
(`none`); a missing table is caught, leaving the database unchanged. -/
def update_schtask (response : Val) (now : Int) (db : AgentDB) : Option AgentDB :=
  match response with
  | .obj fs =>
    match fieldsGet "type" fs with
    | some (.str task_type) =>
      let table_name := pyToLower (pyReplace task_type " " "_")
      some (match lookupAssoc table_name db.respTables with
        | none => db
        | some rows =>
          let nr := normalize_params response
          if rows.any (fun r => r.response == nr) then db
          else { db with
                  respTables :=
                    updAssoc table_name (fun rs => rs ++ [⟨nr, now⟩]) db.respTables })
    | _ => none
  | _ => none

/-! ## Agent operation handlers (`clnt/backup_utils/handlers.py`)

The external `restic` subprocess is abstracted into its observable result:
exit code, parsed standard output, and standard error.  `Option` around the
result models `subprocess.run` itself raising. -/

/-- Result of a line-oriented subprocess run (backup / restore): each stdout
line is its parsed JSON value, or `none` for a non-JSON line (skipped by the
scan).  Parsed lines are modeled as JSON values. -/
structure ProcResult where
  returncode : Int
  stdout : List (Option Val)
  stderr : String
deriving DecidableEq, Repr

/-- Result of a whole-output JSON subprocess run (init / snapshots):
`jsonPart = none` models "no JSON found in the output", `some none` models a
`json.JSONDecodeError`, `some (some v)` the parsed value. -/
structure JsonProc where
  returncode : Int
  jsonPart : Option (Option Val)
  stderr : String
deriving DecidableEq, Repr

/-- `v.get(k)` on a parsed JSON value (objects only). -/
def objGet (v : Val) (k : String) : Option Val :=
  match v with
  | .obj fs => fieldsGet k fs
  | _ => none

/-- Scan stdout lines for the first one whose JSON has
`message_type == "summary"`; non-JSON lines are skipped. -/
def findSummary : List (Option Val) → Option Val
  | [] => none
  | none :: rest => findSummary rest
  | some v :: rest =>
    if objGet v "message_type" == some (.str "summary") then some v
    else findSummary rest

/-- Where a handler's response message ended up. -/
inductive EmitDest where
  | sent : EmitDest
  | savedLocally : EmitDest
deriving DecidableEq, Repr

/-- The response-emission rule shared by the snapshot/backup/restore
handlers: if the message type does not start with `schedule_` and the
websocket is in the OPEN state, send upstream; otherwise persist the
response locally via `update_schtask`. -/
def emitResponse (optype : String) (wsOpen : Bool) (msg : Val) (now : Int)
    (db : AgentDB) : Option ((EmitDest × Val) × AgentDB) :=
  if !strStartsWith optype "schedule_" && wsOpen then some ((.sent, msg), db)
  else (update_schtask msg now db).map (fun db2 => ((.savedLocally, msg), db2))

/-- `handle_get_local_repo_snapshots(params, websocket)`: run
`restic snapshots --json`, record it in the command ledger, and emit the
`response_local_repo_snapshots` message per `emitResponse`.  All caught
exceptions (including a missing `type` in `params`, which raises at the
`startswith` check after the ledger write) yield "no event". -/
def handle_get_local_repo_snapshots (params : ValFields) (wsOpen : Bool)
    (run : Option JsonProc) (now : Int) (db : AgentDB) :
    List (EmitDest × Val) × AgentDB :=
  let password := fieldsGetD "password" params .null
  let repo_path := fieldsGetD "repo_path" params .null
  let command_history := fieldsGetD "command_history" params (.bool true)
  if !pyTruthy password || !pyTruthy repo_path then ([], db)
  else
    match run with
    | none => ([], db)
    | some res =>
      if res.returncode != 0 then ([], db)
      else
        match res.jsonPart with
        | none => ([], db)
        | some none => ([], db)
        | some (some snapshots) =>
          match (if pyTruthy command_history then
                   save_command "get_local_repo_snapshots" params snapshots now db
                 else some db) with
          | none => ([], db)
          | some db1 =>
            let msg : Val := .obj (VF
              [("type", .str "response_local_repo_snapshots"),
               ("repo_path", repo_path), ("snapshots", snapshots)])
            match fieldsGet "type" params with
            | some (.str optype) =>
              match emitResponse optype wsOpen msg now db1 with
              | none => ([], db1)
              | some (ev, db2) => ([ev], db2)
            | _ => ([], db1)

/-- `handle_do_local_repo_backup(params, websocket)`: emit the `processing`
event, run `restic backup --json`, and on a parsed summary emit the
`completed` event.  A non-zero exit or a raised `subprocess.run` is logged
and the handler returns — no further event is emitted. -/
def handle_do_local_repo_backup (params : ValFields) (wsOpen : Bool)
    (run : Option ProcResult) (task_uuid : String) (now : Int) (db : AgentDB) :
    List (EmitDest × Val) × AgentDB :=
  let repo_path := fieldsGetD "repo_path" params .null
  let password := fieldsGetD "password" params .null
  let command_history := fieldsGetD "command_history" params (.bool true)
  if !pyTruthy password || !pyTruthy repo_path then ([], db)
  else
    match fieldsGet "type" params with
    | some (.str optype) =>
      let msg1 : Val := .obj (VF
        [("task_uuid", .str task_uuid),
         ("type", .str "response_local_repo_backup"),
         ("repo_path", repo_path), ("backup_output", .str ""),
         ("task_status", .str "processing")])
      match emitResponse optype wsOpen msg1 now db with
      | none => ([], db)
      | some (ev1, db1) =>
        match run with
        | none => ([ev1], db1)
        | some res =>
          if res.returncode != 0 then ([ev1], db1)
          else
            match findSummary res.stdout with
            | none => ([ev1], db1)
            | some summary =>
              match (if pyTruthy command_history then
                       save_command "do_local_repo_backup" params summary now db1
                     else some db1) with
              | none => ([ev1], db1)
              | some db2 =>
                let msg2 : Val := .obj (VF
                  [("task_uuid", .str task_uuid),
                   ("type", .str "response_local_repo_backup"),
                   ("repo_path", repo_path), ("backup_output", summary),
                   ("task_status", .str "completed")])
                match emitResponse optype wsOpen msg2 now db2 with
                | none => ([ev1], db2)
                | some (ev2, db3) => ([ev1, ev2], db3)
    | _ => ([], db)

/-- `handle_do_local_repo_restore(params, websocket)`: same event protocol
as the backup handler with the `response_local_repo_restore` message;
non-zero exit is likewise logged and the handler returns without a further
event. -/
def handle_do_local_repo_restore (params : ValFields) (wsOpen : Bool)
    (run : Option ProcResult) (task_uuid : String) (now : Int) (db : AgentDB) :
    List (EmitDest × Val) × AgentDB :=
  let repo_path := fieldsGetD "repo_path" params .null
  let password := fieldsGetD "password" params .null
  let snapshot_id := fieldsGetD "snapshot_id" params (.str "latest")
  let command_history := fieldsGetD "command_history" params (.bool true)
  if !pyTruthy password || !pyTruthy repo_path || !pyTruthy snapshot_id then ([], db)
  else
    match fieldsGet "type" params with
    | some (.str optype) =>
      let msg1 : Val := .obj (VF
        [("task_uuid", .str task_uuid),
         ("type", .str "response_local_repo_restore"),
         ("repo_path", repo_path), ("restore_output", .str ""),
         ("task_status", .str "processing")])
      match emitResponse optype wsOpen msg1 now db with
      | none => ([], db)
      | some (ev1, db1) =>
        match run with
        | none => ([ev1], db1)
        | some res =>
          if res.returncode != 0 then ([ev1], db1)
          else
            match findSummary res.stdout with
            | none => ([ev1], db1)
            | some summary =>
              match (if pyTruthy command_history then
                       save_command "do_local_repo_restore" params summary now db1
                     else some db1) with
              | none => ([ev1], db1)
              | some db2 =>
                let msg2 : Val := .obj (VF
                  [("task_uuid", .str task_uuid),
                   ("type", .str "response_local_repo_restore"),
                   ("repo_path", repo_path), ("restore_output", summary),
                   ("task_status", .str "completed")])
                match emitResponse optype wsOpen msg2 now db2 with
                | none => ([ev1], db2)
                | some (ev2, db3) => ([ev1, ev2], db3)
    | _ => ([], db)

/-- Outcome of `handle_init_local_repo`. -/
inductive InitOutcome where
  | alreadyInitialized : InitOutcome
  | fatalError : InitOutcome
  | commandFailed : InitOutcome
  | noJson : InitOutcome
  | jsonDecodeError : InitOutcome
  | ok : Val → InitOutcome
  | raised : InitOutcome
deriving DecidableEq, Repr

/-- `handle_init_local_repo(params, websocket)`: run `restic init --json`.
A non-zero exit whose stderr contains `"config file already exists"` is the
recognized already-initialized case: it is logged and the handler returns
without sending anything upstream.  On success the summary is saved to the
ledger and the `response_init_local_repo` message is sent unconditionally
(a closed websocket makes the send raise: caught, nothing emitted). -/
def handle_init_local_repo (params : ValFields) (wsOpen : Bool)
    (run : Option JsonProc) (now : Int) (db : AgentDB) :
    InitOutcome × List Val × AgentDB :=
  let command_history := fieldsGetD "command_history" params (.bool true)
  match run with
  | none => (.raised, [], db)
  | some res =>
    if res.returncode != 0 then
      if strContains res.stderr "config file already exists" then
        (.alreadyInitialized, [], db)
      else if strContains res.stderr "Fatal" then (.fatalError, [], db)
      else (.commandFailed, [], db)
    else
      match res.jsonPart with
      | none => (.noJson, [], db)
      | some none => (.jsonDecodeError, [], db)
      | some (some init_response) =>
        match (if pyTruthy command_history then
                 save_command "init_local_repo" params init_response now db
               else some db) with
        | none => (.raised, [], db)
        | some db1 =>
          let msg : Val := .obj (VF
            [("type", .str "response_init_local_repo"),
             ("summary", init_response)])
          if wsOpen then (.ok init_response, [msg], db1)
          else (.raised, [], db1)

/-! ## Controller-side S3 helper (`srvr/backup_recovery/s3_helper.py`) -/

/-- What the boto3 `head_bucket` probe observed. -/
inductive BucketProbe where
  | exists2 : BucketProbe
  | notFound : BucketProbe
  | invalidAccessKey : BucketProbe
  | otherError : String → BucketProbe
deriving DecidableEq, Repr

/-- Result of `s3_restic_helper`: either an `{"error": ...}` dict or a plain
string return. -/
inductive S3Result where
  | errorDict : String → S3Result
  | strResult : String → S3Result
deriving DecidableEq, Repr

/-- `s3_restic_helper(...)`: validate inputs, probe/create the bucket, run
the restic subprocess, and on success hand the parsed message to the data
handler.  A non-zero exit whose stderr contains
`"repository master key and config already initialized"` during `init`
returns the already-initialized string and hands nothing to the data
handler.  The returned list is the sequence of messages passed to
`DataHandler.handle_message`. -/
def s3_restic_helper (aws_access_key_id aws_secret_access_key region
    bucket_name password : String) (aws_session_token : Option String)
    (org func_type : String) (probe : BucketProbe) (run : Option JsonProc) :
    S3Result × List Val :=
  if aws_access_key_id = "" || aws_secret_access_key = "" || region = "" ||
      bucket_name = "" || password = "" then
    (.errorDict "Missing essential initialization data!", [])
  else
    let bucket_exists :=
      match probe with
      | .exists2 => some true
      | .notFound => if func_type = "init" then some true else none
      | _ => none
    match probe, bucket_exists with
    | .notFound, none =>
      (.errorDict ("Bucket " ++ bucket_name ++ " does not exist."), [])
    | .invalidAccessKey, _ => (.errorDict "Invalid AWS Access Key ID.", [])
    | .otherError e, _ => (.errorDict e, [])
    | _, _ =>
      let restic_repo := "s3:s3." ++ region ++ ".amazonaws.com/" ++ bucket_name
      if func_type != "init" && func_type != "snapshots" && func_type != "restore" then
        (.errorDict ("Unsupported func_type: " ++ func_type), [])
      else
        match run with
        | none => (.errorDict "Failed to run command", [])
        | some res =>
          if res.returncode != 0 then
            if strContains res.stderr
                "repository master key and config already initialized" &&
                func_type = "init" then
              (.strResult ("Repository at " ++ restic_repo ++ " already initialized."), [])
            else (.strResult ("Command failed: " ++ res.stderr), [])
          else
            match res.jsonPart with
            | some (some out) =>
              let message : Val :=
                if func_type = "init" then
                  .obj (VF [("type", .str "response_init_s3_repo"), ("summary", out)])
                else if func_type = "snapshots" then
                  .obj (VF [("type", .str "response_s3_repo_snapshots"),
                            ("s3_url", .str restic_repo), ("snapshots", out)])
                else
                  .obj (VF [("type", .str "dummy"), ("summary", .str "I worked")])
              (.strResult ("Successfully executed " ++ func_type ++ " operation at "
                 ++ restic_repo),
               [message])
            | _ => (.errorDict "json decode error", [])

/-! ## Controller dispatcher (`srvr/backup_recovery/mutations.py`,
`srvr/backup_recovery/mut_validations.py`) -/

/-- `validate_scheduler_repeats`: pass through `None`, `once`, `infinite`;
parse anything else with `int()` and accept positive values as
`str(int(s))`; otherwise return an error string. -/
def validate_scheduler_repeats (scheduler_repeats : Option String) : Option String :=
  match scheduler_repeats with
  | none => none
  | some s =>
    if s = "once" || s = "infinite" then some s
    else
      match pyIntOfStr s with
      | some n =>
        if n > 0 then some (toString n)
        else some "Error: \x27scheduler_repeats\x27 must be a positive integer"
      | none =>
        some "Error: \x27scheduler_repeats\x27 must be either \x27once\x27, \x27infinite\x27, or a positive integer"

/-- `validate_scheduler_priority`: pass through `None`, else `str(priority)`
(the argument is typed `Optional[int]`, so the `isinstance` check passes). -/
def validate_scheduler_priority (scheduler_priority : Option Int) : Option String :=
  match scheduler_priority with
  | none => none
  | some n => some (toString n)

/-- The `interval` input record (`TimeDurationInput`). -/
structure TimeDurationInput where
  days : Int
  hours : Int
  minutes : Int
  seconds : Int
deriving DecidableEq, Repr

/-- The slice of `ConnectionManager` state the mutations read: the connected
agents and the per-agent queue names. -/
structure Manager where
  active_connections : List String
  queues : List (String × String)
deriving DecidableEq, Repr

/-- Result of a mutation: the returned string, or an uncaught exception. -/
inductive MutOutcome where
  | ret : String → MutOutcome
  | exc : MutOutcome
deriving DecidableEq, Repr

/-- `None`-aware conversions for optional GraphQL arguments. -/
def optBoolVal : Option Bool → Val
  | none => .null
  | some b => .bool b

/-- Optional string argument as a JSON value. -/
def optStrVal : Option String → Val
  | none => .null
  | some s => .str s

/-- List of values as a JSON array. -/
def VL : List Val → ValList
  | [] => .nil
  | v :: rest => .cons v (VL rest)

/-- List of strings as a JSON array. -/
def strArr (l : List String) : Val := .arr (VL (l.map .str))

/-- The shared tail of every dispatching mutation: look up the client's
queue (`Error: Queue not found for the client` when absent) and publish the
task message to it, returning the acknowledgement string.  The returned list
is the sequence of `(routing_key, body)` messages published. -/
def publishTask (m : Manager) (system_uuid : String) (task_message : Val)
    (ack : String) : MutOutcome × List (String × Val) :=
  match lookupAssoc system_uuid m.queues with
  | none => (.ret "Error: Queue not found for the client", [])
  | some qname => (.ret ack, [(qname, task_message)])

/-- Mutation `init_local_repo`. -/
def init_local_repo (m : Manager) (system_uuid repo_path password : String)
    (command_history : Option Bool) : MutOutcome × List (String × Val) :=
  if system_uuid ∉ m.active_connections then (.ret "Error: Client not connected", [])
  else
    let task_message : Val := .obj (VF
      [("type", .str "init_local_repo"), ("repo_path", .str repo_path),
       ("password", .str password),
       ("command_history", optBoolVal command_history)])
    publishTask m system_uuid task_message
      s!"Task allocated to initialize local repo: {repo_path}"

/-- Mutation `get_local_repo_snapshots`, including the scheduler branch.
`isoToUtc` abstracts `datetime.fromisoformat(·).astimezone(utc).isoformat()`
(`none` = `ValueError`, an uncaught exception). -/
def get_local_repo_snapshots (m : Manager) (system_uuid repo_path password : String)
    (command_history : Option Bool) (scheduler : Option String)
    (scheduler_priority : Option Int) (interval : Option TimeDurationInput)
    (timelapse : Option String) (scheduler_repeats : Option String)
    (isoToUtc : String → Option String) : MutOutcome × List (String × Val) :=
  if system_uuid ∉ m.active_connections then (.ret "Error: Client not connected", [])
  else
    let task_type :=
      match scheduler with
      | some "interval" => "schedule_interval_get_local_repo_snapshots"
      | some "timelapse" => "schedule_timelapse_get_local_repo_snapshots"
      | _ => "get_local_repo_snapshots"
    let task_message := VF
      [("type", .str task_type), ("repo_path", .str repo_path),
       ("password", .str password),
       ("command_history", optBoolVal command_history)]
    let ack := s!"Task allocated to retrieve snapshots for local repo: {repo_path}"
    if optTruthy scheduler then
      let rv := validate_scheduler_repeats scheduler_repeats
      let pv := validate_scheduler_priority scheduler_priority
      if (match rv with | some s => strContains s "Error" | none => false) then
        (.ret "Error: Invalid scheduler_repeats input!", [])
      else if (match pv with | some s => strContains s "Error" | none => false) then
        (.ret "Error: Invalid scheduler_priority input!", [])
      else
        let task_message := fieldsSet "scheduler_priority" (optStrVal pv)
          (fieldsSet "scheduler_repeats" (optStrVal rv) task_message)
        match scheduler with
        | some "interval" =>
          let tm :=
            match interval with
            | some iv => fieldsSet "interval" (.obj (VF
                [("days", .num iv.days), ("hours", .num iv.hours),
                 ("minutes", .num iv.minutes), ("seconds", .num iv.seconds)]))
                task_message
            | none => task_message
          publishTask m system_uuid (.obj tm) ack
        | some "timelapse" =>
          match timelapse with
          | some tl =>
            if tl = "" then publishTask m system_uuid (.obj task_message) ack
            else
              match isoToUtc tl with
              | none => (.exc, [])
              | some u =>
                publishTask m system_uuid
                  (.obj (fieldsSet "timelapse" (.str u) task_message)) ack
          | none => publishTask m system_uuid (.obj task_message) ack
        | some other => (.ret ("Error: Invalid scheduler \x27" ++ other ++ "\x27"), [])
        | none => (.exc, [])
    else publishTask m system_uuid (.obj task_message) ack

/-- Mutation `do_local_repo_backup`. -/
def do_local_repo_backup (m : Manager) (system_uuid repo_path password : String)
    (paths : List String) (command_history : Option Bool)
    (exclude tags custom_options : Option (List String)) :
    MutOutcome × List (String × Val) :=
  if system_uuid ∉ m.active_connections then (.ret "Error: Client not connected", [])
  else
    let task_message : Val := .obj (VF
      [("type", .str "do_local_repo_backup"), ("repo_path", .str repo_path),
       ("password", .str password), ("paths", strArr paths),
       ("exclude", strArr (exclude.getD [])), ("tags", strArr (tags.getD [])),
       ("custom_options", strArr (custom_options.getD [])),
       ("command_history", optBoolVal command_history)])
    publishTask m system_uuid task_message
      s!"Task allocated to backup to local repo: {repo_path}"

/-- Mutation `do_local_repo_restore`. -/
def do_local_repo_restore (m : Manager)
    (system_uuid repo_path password snapshot_id target_path : String)
    (command_history : Option Bool)
    (exclude include_ custom_options : Option (List String)) :
    MutOutcome × List (String × Val) :=
  if system_uuid ∉ m.active_connections then (.ret "Error: Client not connected", [])
  else
    let task_message : Val := .obj (VF
      [("type", .str "do_local_repo_restore"), ("repo_path", .str repo_path),
       ("password", .str password), ("snapshot_id", .str snapshot_id),
       ("target_path", .str target_path),
       ("exclude", strArr (exclude.getD [])),
       ("include", strArr (include_.getD [])),
       ("custom_options", strArr (custom_options.getD [])),
       ("command_history", optBoolVal command_history)])
    publishTask m system_uuid task_message
      s!"Task allocated to restore from local repo: {repo_path}"

/-- Mutation `do_s3_repo_backup`. -/
def do_s3_repo_backup (m : Manager)
    (system_uuid aws_access_key_id aws_secret_access_key region bucket_name
      password : String) (paths : List String) (command_history : Option Bool)
    (exclude tags custom_options : Option (List String))
    (aws_session_token : Option String) : MutOutcome × List (String × Val) :=
  if system_uuid ∉ m.active_connections then (.ret "Error: Client not connected", [])
  else
    let task_message : Val := .obj (VF
      [("type", .str "do_s3_repo_backup"),
       ("aws_access_key_id", .str aws_access_key_id),
       ("aws_secret_access_key", .str aws_secret_access_key),
       ("aws_session_token", optStrVal aws_session_token),
       ("region", .str region), ("bucket_name", .str bucket_name),
       ("password", .str password), ("paths", strArr paths),
       ("exclude", strArr (exclude.getD [])), ("tags", strArr (tags.getD [])),
       ("custom_options", strArr (custom_options.getD [])),
       ("command_history", optBoolVal command_history)])
    publishTask m system_uuid task_message
      s!"Task allocated to backup to s3 repo: {bucket_name}"

/-- Mutation `do_s3_repo_restore`. -/
def do_s3_repo_restore (m : Manager)
    (system_uuid aws_access_key_id aws_secret_access_key region bucket_name
      password snapshot_id target_path : String) (command_history : Option Bool)
    (exclude include_ custom_options : Option (List String))
    (aws_session_token : Option String) : MutOutcome × List (String × Val) :=
  if system_uuid ∉ m.active_connections then (.ret "Error: Client not connected", [])
  else
    let task_message : Val := .obj (VF
      [("type", .str "do_s3_repo_restore"),
       ("aws_access_key_id", .str aws_access_key_id),
       ("aws_secret_access_key", .str aws_secret_access_key),
       ("aws_session_token", optStrVal aws_session_token),
       ("region", .str region), ("bucket_name", .str bucket_name),
       ("password", .str password), ("snapshot_id", .str snapshot_id),
       ("target_path", .str target_path),
       ("exclude", strArr (exclude.getD [])),
       ("include", strArr (include_.getD [])),
       ("custom_options", strArr (custom_options.getD [])),
       ("command_history", optBoolVal command_history)])
    publishTask m system_uuid task_message
      s!"Task allocated to restore from s3 repo: {bucket_name}"

/-! ## Controller result store (`srvr/backup_recovery/handlers.py`) -/

/-- Document of the `local_repo_snapshots` collection. -/
structure SnapDoc where
  systemUuid : String
  repo_path : Val
  response_timestamp : Int
  snapshots : Val
deriving DecidableEq, Repr

/-- Document of the `local_repo_backups` collection. -/
structure BackupDoc where
  systemUuid : String
  repo_path : Val
  response_timestamp : Int
  backup_output : Val
deriving DecidableEq, Repr

/-- Mongo `find_one({"systemUuid": u, "repo_path": r})` on the snapshots
collection: first matching document. -/
def snapFind (uuid : String) (rp : Val) : List SnapDoc → Option SnapDoc
  | [] => none
  | d :: rest =>
    if d.systemUuid = uuid ∧ d.repo_path = rp then some d else snapFind uuid rp rest

/-- Mongo `update_one(filter, {"$set": doc}, upsert=True)` on the snapshots
collection: overwrite the first matching document or insert. -/
def snapUpsert (doc : SnapDoc) : List SnapDoc → List SnapDoc
  | [] => [doc]
  | d :: rest =>
    if d.systemUuid = doc.systemUuid ∧ d.repo_path = doc.repo_path then doc :: rest
    else d :: snapUpsert doc rest

/-- `find_one` on the backups collection. -/
def backupFind (uuid : String) (rp : Val) : List BackupDoc → Option BackupDoc
  | [] => none
  | d :: rest =>
    if d.systemUuid = uuid ∧ d.repo_path = rp then some d else backupFind uuid rp rest

/-- `update_one(..., upsert=True)` on the backups collection. -/
def backupUpsert (doc : BackupDoc) : List BackupDoc → List BackupDoc
  | [] => [doc]
  | d :: rest =>
    if d.systemUuid = doc.systemUuid ∧ d.repo_path = doc.repo_path then doc :: rest
    else d :: backupUpsert doc rest

/-- `BackupHandlers.handle_response_local_repo_snapshots`: read the stored
document; when its `snapshots` equal the incoming ones, skip the update;
otherwise upsert with a fresh `response_timestamp`. -/
def handle_response_local_repo_snapshots (now : Int) (system_uuid : String)
    (message : Val) (store : List SnapDoc) : List SnapDoc :=
  let snapshots := (objGet message "snapshots").getD (.arr .nil)
  let repo_path := (objGet message "repo_path").getD .null
  match snapFind system_uuid repo_path store with
  | some d =>
    if d.snapshots = snapshots then store
    else snapUpsert ⟨system_uuid, repo_path, now, snapshots⟩ store
  | none => snapUpsert ⟨system_uuid, repo_path, now, snapshots⟩ store

/-- `BackupHandlers.handle_response_local_repo_backup`: reject incomplete
responses, then upsert the document with a fresh `response_timestamp` —
with no read of the existing document and no payload comparison. -/
def handle_response_local_repo_backup (now : Int) (system_uuid : String)
    (message : Val) (store : List BackupDoc) : List BackupDoc :=
  let repo_path := (objGet message "repo_path").getD .null
  let backup_output := (objGet message "backup_output").getD .null
  if !pyTruthy repo_path || !pyTruthy backup_output then store
  else backupUpsert ⟨system_uuid, repo_path, now, backup_output⟩ store

/-! ## DR monitor (`srvr/backup_recovery/dr_mon.py`) -/

/-- One agent entry of the DR policy
(`ORGS.<org>.DR.agents.<uuid>`). -/
structure AgentCfg where
  enabled : Bool
  dr_monitoring_threshold : Option String
  restore_config : Option Val
deriving DecidableEq, Repr

/-- One organization entry: the `DR.agents` mapping when the org has a `DR`
key. -/
structure OrgData where
  dr_agents : Option (List (String × AgentCfg))
deriving DecidableEq, Repr

/-- A `client_status` document as read by the monitor; timestamps are
already-parsed datetimes. -/
structure StatusDoc where
  system_uuid : String
  connected_at : Option Int
  last_disconnected : Option Int
deriving DecidableEq, Repr

/-- `DRMonitor.parse_duration`: hours are taken from before the first `"H"`
(after deleting every `"PT"`), the remainder's prefix before the first `"M"`
is the minutes; a failed `int()` is a `ValueError` (`none`).  Returns
seconds. -/
def parse_duration (duration_str : String) : Option Int := do
  let (hours, rest) ←
    if strContains duration_str "H" then
      match pySplitOn duration_str "H" with
      | p0 :: p1 :: _ =>
        (pyIntOfStr (pyReplace p0 "PT" "")).map (fun h => (h, p1))
      | _ => none
    else some (0, duration_str)
  let minutes ←
    if strContains rest "M" then pyIntOfStr ((pySplitOn rest "M").headD "")
    else some 0
  some (hours * 3600 + minutes * 60)

/-- `find_one({"system_uuid": uuid})` on the status collection. -/
def findStatus (uuid : String) : List StatusDoc → Option StatusDoc
  | [] => none
  | d :: rest => if d.system_uuid = uuid then some d else findStatus uuid rest

/-- `DRMonitor.trigger_restore`: a restore is initiated only when the agent
has a `restore_config`; otherwise the missing config is logged and nothing
happens. -/
def trigger_restore (org_name agent_uuid : String) (cfg : AgentCfg) :
    List (String × String × Val) :=
  match cfg.restore_config with
  | none => []
  | some rc => [(org_name, agent_uuid, rc)]

/-- Per-agent body of `DRMonitor.check_dr_clients`: read the liveness
record, skip when absent or missing either timestamp, parse the threshold
(skipping a falsy or unparsable one), and trigger the restore when
`now - last_disconnected` exceeds it. -/
def checkAgent (now : Int) (org_name agent_uuid : String) (cfg : AgentCfg)
    (store : List StatusDoc) : List (String × String × Val) :=
  match findStatus agent_uuid store with
  | none => []
  | some doc =>
    match doc.connected_at, doc.last_disconnected with
    | some _, some disconnected_at =>
      let time_diff := now - disconnected_at
      match cfg.dr_monitoring_threshold with
      | none => []
      | some thr =>
        if thr = "" then []
        else
          match parse_duration thr with
          | none => []
          | some threshold_time =>
            if time_diff > threshold_time then
              trigger_restore org_name agent_uuid cfg
            else []
    | _, _ => []

/-- `DRMonitor.check_dr_clients`: one sweep over the policy, produced every
60 s by `monitor_dr_status` after its 60 s warm-up.  Returns the restore
invocations `(org, agent_uuid, restore_config)` of this iteration. -/
def check_dr_clients (now : Int) (policy : List (String × OrgData))
    (store : List StatusDoc) : List (String × String × Val) :=
  policy.flatMap fun od =>
    match od.2.dr_agents with
    | none => []
    | some agents =>
      agents.flatMap fun ac =>
        if ac.2.enabled then checkAgent now od.1 ac.1 ac.2 store else []

/-! ## Agent message consumer (`clnt/clnt.py`,
`clnt/backup_utils/schedule_manager.py`) -/

/-- The attributes a fresh `ScheduleManager()` instance has: the
`scheduler` field set in `__init__` plus the methods of the class body. -/
def scheduleManagerAttrs : List String :=
  ["__init__", "scheduler", "schedule_task", "list_jobs", "delete_job",
   "delete_all_jobs"]

/-- `consume_messages`' dispatch table for non-scheduled message types. -/
def consumeDispatchTable : List (String × String) :=
  [("init_local_repo", "handle_init_local_repo"),
   ("get_local_repo_snapshots", "handle_get_local_repo_snapshots"),
   ("do_local_repo_backup", "handle_do_local_repo_backup"),
   ("do_local_repo_restore", "handle_do_local_repo_restore"),
   ("do_s3_repo_backup", "handle_do_s3_repo_backup"),
   ("do_s3_repo_restore", "handle_do_s3_repo_restore")]

/-- Observable effects of processing one inbox message in
`consume_messages`. -/
structure ConsumeEffects where
  errorLogged : Bool
  warningLogged : Bool
  invokedHandler : Option String
  scheduleLedgerSaves : Nat
deriving DecidableEq, Repr

/-- One iteration of the `consume_messages` loop on a decoded message of
type `msgType`.  A `schedule_` message constructs a `ScheduleManager` and
calls `scheduler.handle_scheduled_task(...)`; when that attribute does not
exist the `AttributeError` is caught by the loop's `except`, so the
`save_scheduled_task` call after it is never reached. -/
def consume_message_step (msgType : String) (commandHistoryTruthy : Bool) :
    ConsumeEffects :=
  if strStartsWith msgType "schedule_" then
    if scheduleManagerAttrs.contains "handle_scheduled_task" then
      { errorLogged := false, warningLogged := false,
        invokedHandler := some "handle_scheduled_task",
        scheduleLedgerSaves := if commandHistoryTruthy then 1 else 0 }
    else
      { errorLogged := true, warningLogged := false, invokedHandler := none,
        scheduleLedgerSaves := 0 }
  else
    match lookupAssoc msgType consumeDispatchTable with
    | some h =>
      { errorLogged := false, warningLogged := false, invokedHandler := some h,
        scheduleLedgerSaves := 0 }
    | none =>
      { errorLogged := false, warningLogged := true, invokedHandler := none,
        scheduleLedgerSaves := 0 }

/-- `s` is the decimal representation of a positive integer: a non-empty
all-digit string without a leading zero. -/
def isPosIntRepr (s : String) : Bool :=
  match s.data with
  | [] => false
  | c :: rest => c.isDigit && c ≠ '0' && rest.all Char.isDigit

/-! ## Helper lemmas -/

theorem lookupAssoc_updAssoc_same {α : Type} (k : String) (f : α → α) :
    ∀ l : List (String × α), lookupAssoc k (updAssoc k f l) = (lookupAssoc k l).map f
  | [] => rfl
  | (k2, v) :: rest => by
    by_cases h : k2 = k <;>
      simp [updAssoc, lookupAssoc, h, lookupAssoc_updAssoc_same k f rest]

theorem lookupAssoc_updAssoc_ne {α : Type} (k k2 : String) (f : α → α) (hne : k2 ≠ k) :
    ∀ l : List (String × α), lookupAssoc k2 (updAssoc k f l) = lookupAssoc k2 l
  | [] => rfl
  | (k3, v) :: rest => by
    by_cases h : k3 = k
    · subst h
      simp [updAssoc, lookupAssoc, Ne.symm hne]
    · simp [updAssoc, lookupAssoc, h, lookupAssoc_updAssoc_ne k k2 f hne rest]

theorem fieldsGet_fieldsSet_same (k : String) (v : Val) :
    ∀ fs : ValFields, fieldsGet k (fieldsSet k v fs) = some v
  | .nil => by simp [fieldsSet, fieldsGet]
  | .cons k2 v2 rest => by
    by_cases h : k2 = k <;>
      simp [fieldsSet, fieldsGet, h, fieldsGet_fieldsSet_same k v rest]

theorem fieldsGet_fieldsSet_ne (k k2 : String) (v : Val) (hne : k2 ≠ k) :
    ∀ fs : ValFields, fieldsGet k2 (fieldsSet k v fs) = fieldsGet k2 fs
  | .nil => by simp [fieldsSet, fieldsGet, Ne.symm hne]
  | .cons k3 v3 rest => by
    by_cases h : k3 = k
    · subst h
      simp [fieldsSet, fieldsGet, Ne.symm hne]
    · simp [fieldsSet, fieldsGet, h, fieldsGet_fieldsSet_ne k k2 v hne rest]

/-- `encStep` leaves every other key unchanged. -/
theorem encStep_get_ne (key k : String) (hk : k ≠ key) {fs fs2 : ValFields}
    (h : encStep key fs = some fs2) : fieldsGet k fs2 = fieldsGet k fs := by
  unfold encStep at h
  split at h
  · cases h
    rfl
  · cases he : encValField _ with
    | none => rw [he] at h; cases h
    | some e =>
      rw [he] at h
      cases h
      exact fieldsGet_fieldsSet_ne key k e hk fs

/-- `encStep` replaces a present string credential by its ciphertext. -/
theorem encStep_get_str (key : String) {fs fs2 : ValFields} {s : String}
    (hv : fieldsGet key fs = some (.str s)) (h : encStep key fs = some fs2) :
    fieldsGet key fs2 = some (.enc s) := by
  unfold encStep at h
  split at h
  next heq => rw [hv] at heq; cases heq
  next v heq =>
    rw [hv] at heq
    cases heq
    simp [encValField] at h
    rw [← h]
    exact fieldsGet_fieldsSet_same key (.enc s) fs

/-- `encStep` on an absent key is the identity. -/
theorem encStep_absent (key : String) {fs fs2 : ValFields}
    (hv : fieldsGet key fs = none) (h : encStep key fs = some fs2) : fs2 = fs := by
  unfold encStep at h
  split at h
  · cases h
    rfl
  next v heq => rw [hv] at heq; cases heq

/-- `encSessionOpt` leaves every key other than `aws_session_token`
unchanged. -/
theorem encSessionOpt_get_ne (k : String) (hk : k ≠ "aws_session_token")
    {fs fs2 : ValFields} (h : encSessionOpt fs = some fs2) :
    fieldsGet k fs2 = fieldsGet k fs := by
  unfold encSessionOpt at h
  split at h
  · cases h
    rfl
  · split at h
    · cases h
      rfl
    · cases he : encValField _ with
      | none => rw [he] at h; cases h
      | some e =>
        rw [he] at h
        cases h
        exact fieldsGet_fieldsSet_ne "aws_session_token" k e hk fs

/-- `encSessionOpt` on a present string token: encrypted unless empty. -/
theorem encSessionOpt_get_str {fs fs2 : ValFields} {s : String}
    (hv : fieldsGet "aws_session_token" fs = some (.str s))
    (h : encSessionOpt fs = some fs2) :
    fieldsGet "aws_session_token" fs2 =
      some (if s = "" then .str s else .enc s) := by
  unfold encSessionOpt at h
  split at h
  next heq => rw [hv] at heq; cases heq
  next v heq =>
    rw [hv] at heq
    cases heq
    split at h
    next hemp =>
      cases hemp
      cases h
      simp [hv]
    next hemp =>
      have hs : ¬s = "" := fun hs0 => hemp (by rw [hs0])
      rw [if_neg hs]
      simp [encValField] at h
      rw [← h]
      exact fieldsGet_fieldsSet_same "aws_session_token" (.enc s) fs

/-- `encStepRequired` leaves every other key unchanged. -/
theorem encStepRequired_get_ne (key k : String) (hk : k ≠ key) {fs fs2 : ValFields}
    (h : encStepRequired key fs = some fs2) : fieldsGet k fs2 = fieldsGet k fs := by
  unfold encStepRequired at h
  split at h
  · cases h
  · cases he : encValField _ with
    | none => rw [he] at h; cases h
    | some e =>
      rw [he] at h
      cases h
      exact fieldsGet_fieldsSet_ne key k e hk fs

/-- `encStepRequired` replaces the (required) string credential by its
ciphertext. -/
theorem encStepRequired_get_str (key : String) {fs fs2 : ValFields} {s : String}
    (hv : fieldsGet key fs = some (.str s)) (h : encStepRequired key fs = some fs2) :
    fieldsGet key fs2 = some (.enc s) := by
  unfold encStepRequired at h
  split at h
  next heq => rw [hv] at heq; cases heq
  next v heq =>
    rw [hv] at heq
    cases heq
    simp [encValField] at h
    rw [← h]
    exact fieldsGet_fieldsSet_same key (.enc s) fs

/-- `encSessionReq` leaves every key other than `aws_session_token`
unchanged. -/
theorem encSessionReq_get_ne (k : String) (hk : k ≠ "aws_session_token")
    {fs fs2 : ValFields} (h : encSessionReq fs = some fs2) :
    fieldsGet k fs2 = fieldsGet k fs := by
  unfold encSessionReq at h
  split at h
  · cases h
  · split at h
    · cases h
      rfl
    · cases he : encValField _ with
      | none => rw [he] at h; cases h
      | some e =>
        rw [he] at h
        cases h
        exact fieldsGet_fieldsSet_ne "aws_session_token" k e hk fs

/-- `encSessionReq` on a string token: encrypted unless empty. -/
theorem encSessionReq_get_str {fs fs2 : ValFields} {s : String}
    (hv : fieldsGet "aws_session_token" fs = some (.str s))
    (h : encSessionReq fs = some fs2) :
    fieldsGet "aws_session_token" fs2 =
      some (if s = "" then .str s else .enc s) := by
  unfold encSessionReq at h
  split at h
  next heq => rw [hv] at heq; cases heq
  next v heq =>
    rw [hv] at heq
    cases heq
    split at h
    next hemp =>
      cases hemp
      cases h
      simp [hv]
    next hemp =>
      have hs : ¬s = "" := fun hs0 => hemp (by rw [hs0])
      rw [if_neg hs]
      simp [encValField] at h
      rw [← h]
      exact fieldsGet_fieldsSet_same "aws_session_token" (.enc s) fs

/-! ## Claim theorems -/

/-- C1: every agent-targeted mutation (`init_local_repo`,
`get_local_repo_snapshots`, `do_local_repo_backup`, `do_local_repo_restore`,
`do_s3_repo_backup`, `do_s3_repo_restore`) returns exactly
`"Error: Client not connected"` and publishes nothing when the target
`system_uuid` is not among the connected agents. -/
theorem claim_C1 (m : Manager)
    (system_uuid repo_path password snapshot_id target_path aws_access_key_id
      aws_secret_access_key region bucket_name : String)
    (command_history : Option Bool) (scheduler : Option String)
    (scheduler_priority : Option Int) (interval : Option TimeDurationInput)
    (timelapse : Option String) (scheduler_repeats : Option String)
    (isoToUtc : String → Option String) (paths : List String)
    (exclude tags include_ custom_options : Option (List String))
    (aws_session_token : Option String)
    (h : system_uuid ∉ m.active_connections) :
    init_local_repo m system_uuid repo_path password command_history =
      (.ret "Error: Client not connected", []) ∧
    get_local_repo_snapshots m system_uuid repo_path password command_history
        scheduler scheduler_priority interval timelapse scheduler_repeats isoToUtc =
      (.ret "Error: Client not connected", []) ∧
    do_local_repo_backup m system_uuid repo_path password paths command_history
        exclude tags custom_options = (.ret "Error: Client not connected", []) ∧
    do_local_repo_restore m system_uuid repo_path password snapshot_id target_path
        command_history exclude include_ custom_options =
      (.ret "Error: Client not connected", []) ∧
    do_s3_repo_backup m system_uuid aws_access_key_id aws_secret_access_key region
        bucket_name password paths command_history exclude tags custom_options
        aws_session_token = (.ret "Error: Client not connected", []) ∧
    do_s3_repo_restore m system_uuid aws_access_key_id aws_secret_access_key region
        bucket_name password snapshot_id target_path command_history exclude
        include_ custom_options aws_session_token =
      (.ret "Error: Client not connected", []) := by
  refine ⟨?_, ?_, ?_, ?_, ?_, ?_⟩ <;>
    simp [init_local_repo, get_local_repo_snapshots, do_local_repo_backup,
      do_local_repo_restore, do_s3_repo_backup, do_s3_repo_restore, h]

/-- Witness for C1 at a concrete disconnected agent. -/
theorem claim_C1_witness :
    init_local_repo ⟨[], []⟩ "A" "/r" "p" none =
      (.ret "Error: Client not connected", []) ∧
    do_s3_repo_restore ⟨[], []⟩ "A" "ak" "sk" "rg" "bk" "p" "sid" "/t" none none
        none none none = (.ret "Error: Client not connected", []) :=
  have h := claim_C1 ⟨[], []⟩ "A" "/r" "p" "sid" "/t" "ak" "sk" "rg" "bk" none
    none none none none none (fun _ => none) [] none none none none none
    (by decide)
  ⟨h.1, h.2.2.2.2.2⟩

/-- C10: a `schedule_`-typed inbox message makes `consume_messages` call
`handle_scheduled_task` on a fresh `ScheduleManager`, an attribute the class
does not define; the resulting `AttributeError` is caught and logged, no
handler runs, and the `save_scheduled_task` write after the call is never
reached. -/
theorem claim_C10 (msgType : String) (commandHistoryTruthy : Bool)
    (h : strStartsWith msgType "schedule_" = true) :
    consume_message_step msgType commandHistoryTruthy =
      { errorLogged := true, warningLogged := false, invokedHandler := none,
        scheduleLedgerSaves := 0 } ∧
    "handle_scheduled_task" ∉ scheduleManagerAttrs := by
  constructor
  · simp [consume_message_step, h, scheduleManagerAttrs]
  · decide

/-- Witness for C10 at a concrete scheduled message type. -/
theorem claim_C10_witness :
    consume_message_step "schedule_interval_get_local_repo_snapshots" true =
      { errorLogged := true, warningLogged := false, invokedHandler := none,
        scheduleLedgerSaves := 0 } ∧
    "handle_scheduled_task" ∉ scheduleManagerAttrs :=
  claim_C10 "schedule_interval_get_local_repo_snapshots" true (by decide)

/-- C8 counterexample: `"+1"` is neither `once`, `infinite`, nor the decimal
representation of a positive integer, yet the mutation accepts it (Python
`int("+1")` succeeds) and publishes the job. -/
theorem claim_C8_counterexample :
    isPosIntRepr "+1" = false ∧ "+1" ≠ "once" ∧ "+1" ≠ "infinite" ∧
    get_local_repo_snapshots ⟨["A"], [("A", "queue_A")]⟩ "A" "/r" "p" none
        (some "interval") none (some ⟨0, 0, 5, 0⟩) none (some "+1")
        (fun _ => none) =
      (.ret "Task allocated to retrieve snapshots for local repo: /r",
       [("queue_A", .obj (VF
         [("type", .str "schedule_interval_get_local_repo_snapshots"),
          ("repo_path", .str "/r"), ("password", .str "p"),
          ("command_history", .null), ("scheduler_repeats", .str "1"),
          ("scheduler_priority", .null),
          ("interval", .obj (VF
            [("days", .num 0), ("hours", .num 0), ("minutes", .num 5),
             ("seconds", .num 0)]))]))]) :=
  ⟨by decide, by decide, by decide, by decide⟩

/-- C8 (amended): with a scheduler requested, a `scheduler_repeats` that
`int()` rejects or parses to a non-positive value — and is not `once` or
`infinite` — makes the mutation return exactly
`"Error: Invalid scheduler_repeats input!"` and publish nothing; `once` and
`infinite` pass through unchanged, and any string `int()` parses to a
positive `n` is accepted as `str(n)`. -/
theorem claim_C8 (m : Manager) (system_uuid repo_path password : String)
    (command_history : Option Bool) (sch : String)
    (scheduler_priority : Option Int) (interval : Option TimeDurationInput)
    (timelapse : Option String) (s : String) (isoToUtc : String → Option String)
    (hconn : system_uuid ∈ m.active_connections) (hsch : sch ≠ "")
    (hbad : pyIntOfStr s = none ∨ ∃ n : Int, pyIntOfStr s = some n ∧ n ≤ 0)
    (h1 : s ≠ "once") (h2 : s ≠ "infinite") :
    get_local_repo_snapshots m system_uuid repo_path password command_history
        (some sch) scheduler_priority interval timelapse (some s) isoToUtc =
      (.ret "Error: Invalid scheduler_repeats input!", []) ∧
    (∀ u : String, ∀ n : Int, pyIntOfStr u = some n → 0 < n →
      validate_scheduler_repeats (some u) = some (toString n)) ∧
    validate_scheduler_repeats (some "once") = some "once" ∧
    validate_scheduler_repeats (some "infinite") = some "infinite" := by
  refine ⟨?_, ?_, by decide, by decide⟩
  · have hrv : ∃ e, validate_scheduler_repeats (some s) = some e ∧
        strContains e "Error" = true := by
      rcases hbad with hb | ⟨n, hn, hle⟩
      · exact ⟨"Error: \x27scheduler_repeats\x27 must be either \x27once\x27, \x27infinite\x27, or a positive integer",
          by simp [validate_scheduler_repeats, h1, h2, hb], by decide⟩
      · exact ⟨"Error: \x27scheduler_repeats\x27 must be a positive integer",
          by simp [validate_scheduler_repeats, h1, h2, hn, not_lt.mpr hle], by decide⟩
    rcases hrv with ⟨e, he, hce⟩
    simp [get_local_repo_snapshots, hconn, optTruthy, hsch, he, hce]
  · intro u n hpn hpos
    by_cases hu1 : u = "once"
    · subst hu1
      rw [show pyIntOfStr "once" = none from by decide] at hpn
      cases hpn
    by_cases hu2 : u = "infinite"
    · subst hu2
      rw [show pyIntOfStr "infinite" = none from by decide] at hpn
      cases hpn
    · simp [validate_scheduler_repeats, hu1, hu2, hpn, hpos]

/-- Witness for C8 (amended) at the literal scenario input `"-1"`. -/
theorem claim_C8_witness :
    get_local_repo_snapshots ⟨["A"], []⟩ "A" "/r" "p" none (some "interval")
        none none none (some "-1") (fun _ => none) =
      (.ret "Error: Invalid scheduler_repeats input!", []) :=
  (claim_C8 ⟨["A"], []⟩ "A" "/r" "p" none "interval" none none none "-1"
    (fun _ => none) (by decide) (by decide)
    (Or.inr ⟨-1, by decide, by decide⟩) (by decide) (by decide)).1

/-- C2: `save_command` keeps each operation-kind table free of duplicate
`normalize_params` values — inserting params whose normalized form (computed
after credential encryption) matches an existing row is a no-op that leaves
the database unchanged, and any table with pairwise-distinct normalized
params still has pairwise-distinct normalized params after the call. -/
theorem claim_C2 (command_type : String) (params p2 : ValFields) (response : Val)
    (now : Int) (db : AgentDB) (rows : List CmdRow)
    (henc : encryptForSave command_type params = some p2)
    (hrows : lookupAssoc (pyToLower (pyReplace command_type " " "_"))
      db.cmdTables = some rows) :
    (rows.any (fun r => r.params == normalize_params (.obj p2)) = true →
      save_command command_type params response now db = some db) ∧
    (List.Pairwise (fun a b => a.params ≠ b.params) rows →
      ∀ db2 rows2, save_command command_type params response now db = some db2 →
        lookupAssoc (pyToLower (pyReplace command_type " " "_"))
          db2.cmdTables = some rows2 →
        List.Pairwise (fun a b => a.params ≠ b.params) rows2) := by
  constructor
  · intro hdup
    have hdup2 : ∃ x ∈ rows, x.params = normalize_params (.obj p2) := by
      simpa using hdup
    simp [save_command, henc, hrows, hdup2]
  · intro huniq db2 rows2 hsc hrows2
    rw [save_command, henc] at hsc
    simp [hrows] at hsc
    by_cases hdup : ∃ x ∈ rows, x.params = normalize_params (.obj p2)
    · rw [if_pos hdup] at hsc
      subst hsc
      rw [hrows] at hrows2
      cases hrows2
      exact huniq
    · rw [if_neg hdup] at hsc
      subst hsc
      rw [lookupAssoc_updAssoc_same, hrows] at hrows2
      simp at hrows2
      subst hrows2
      push_neg at hdup
      refine List.pairwise_append.mpr ⟨huniq, by simp, ?_⟩
      intro a ha b hb
      simp at hb
      subst hb
      exact hdup a ha

/-- Witness for C2: a duplicate insert against a table that already holds
the (encrypted, normalized) params is a no-op. -/
theorem claim_C2_witness :
    save_command "init_local_repo"
        (VF [("repo_path", .str "/r"), ("password", .str "p")]) (.obj .nil) 5
        ⟨[("init_local_repo",
           [⟨.obj (VF [("password", .enc "p"), ("repo_path", .str "/r")]),
             .obj .nil, 1⟩])], [], []⟩ =
      some ⟨[("init_local_repo",
           [⟨.obj (VF [("password", .enc "p"), ("repo_path", .str "/r")]),
             .obj .nil, 1⟩])], [], []⟩ :=
  (claim_C2 "init_local_repo"
    (VF [("repo_path", .str "/r"), ("password", .str "p")])
    (VF [("repo_path", .str "/r"), ("password", .enc "p")]) (.obj .nil) 5
    ⟨[("init_local_repo",
       [⟨.obj (VF [("password", .enc "p"), ("repo_path", .str "/r")]),
         .obj .nil, 1⟩])], [], []⟩
    [⟨.obj (VF [("password", .enc "p"), ("repo_path", .str "/r")]),
      .obj .nil, 1⟩]
    (by decide) (by decide)).1 (by decide)

/-- C3 counterexample: a `password` equal to the empty string is not
skipped — `save_scheduled_task` stores its ciphertext `enc ""`, not the
plaintext `""` (and `save_command` behaves the same way); only
`aws_session_token` has the empty-string skip. -/
theorem claim_C3_counterexample :
    save_scheduled_task (VF [("password", .str "")]) initialDB =
      some { initialDB with
              schedule_ledger :=
                [⟨.obj (VF [("password", .enc "")]), "pending"⟩] } ∧
    Val.enc "" ≠ Val.str "" :=
  ⟨by decide, by decide⟩

/-- C3 (amended): before the row is written (and hence before
`normalize_params`), encryption touches exactly the credential fields
`password`, `aws_access_key_id`, `aws_secret_access_key` and
`aws_session_token`: each present string credential is replaced by its
ciphertext, with an empty-string skip for `aws_session_token` only — the
other three are encrypted even when empty.  In `save_command` the three AWS
fields are processed only for `do_s3_repo_*` command types. -/
theorem claim_C3 (params p2 : ValFields) (h : encryptForSchtask params = some p2) :
    (∀ k, k ≠ "password" → k ≠ "aws_access_key_id" →
      k ≠ "aws_secret_access_key" → k ≠ "aws_session_token" →
      fieldsGet k p2 = fieldsGet k params) ∧
    (∀ s, fieldsGet "password" params = some (.str s) →
      fieldsGet "password" p2 = some (.enc s)) ∧
    (∀ s, fieldsGet "aws_access_key_id" params = some (.str s) →
      fieldsGet "aws_access_key_id" p2 = some (.enc s)) ∧
    (∀ s, fieldsGet "aws_secret_access_key" params = some (.str s) →
      fieldsGet "aws_secret_access_key" p2 = some (.enc s)) ∧
    (∀ s, fieldsGet "aws_session_token" params = some (.str s) →
      fieldsGet "aws_session_token" p2 =
        some (if s = "" then .str s else .enc s)) ∧
    (∀ db db2, save_scheduled_task params db = some db2 →
      db2.schedule_ledger = db.schedule_ledger ++ [⟨.obj p2, "pending"⟩]) ∧
    (∀ ctype params3 p3, encryptForSave ctype params3 = some p3 →
      strStartsWith ctype "do_s3_repo_" = false →
      ∀ k, k ≠ "password" → fieldsGet k p3 = fieldsGet k params3) := by
  have hsave : encryptForSchtask params = some p2 := h
  unfold encryptForSchtask at h
  obtain ⟨q1, h1, h⟩ := Option.bind_eq_some.mp h
  obtain ⟨q2, h2, h⟩ := Option.bind_eq_some.mp h
  obtain ⟨q3, h3, h4⟩ := Option.bind_eq_some.mp h
  refine ⟨?_, ?_, ?_, ?_, ?_, ?_, ?_⟩
  · intro k hk1 hk2 hk3 hk4
    rw [encSessionOpt_get_ne k hk4 h4, encStep_get_ne _ k hk3 h3,
      encStep_get_ne _ k hk2 h2, encStep_get_ne _ k hk1 h1]
  · intro s hs
    have g1 := encStep_get_str "password" hs h1
    rw [encSessionOpt_get_ne _ (by decide) h4,
      encStep_get_ne _ _ (by decide) h3, encStep_get_ne _ _ (by decide) h2]
    exact g1
  · intro s hs
    have g0 : fieldsGet "aws_access_key_id" q1 = some (.str s) := by
      rw [encStep_get_ne _ _ (by decide) h1]
      exact hs
    have g2 := encStep_get_str "aws_access_key_id" g0 h2
    rw [encSessionOpt_get_ne _ (by decide) h4,
      encStep_get_ne _ _ (by decide) h3]
    exact g2
  · intro s hs
    have g0 : fieldsGet "aws_secret_access_key" q2 = some (.str s) := by
      rw [encStep_get_ne _ _ (by decide) h2, encStep_get_ne _ _ (by decide) h1]
      exact hs
    have g3 := encStep_get_str "aws_secret_access_key" g0 h3
    rw [encSessionOpt_get_ne _ (by decide) h4]
    exact g3
  · intro s hs
    have g0 : fieldsGet "aws_session_token" q3 = some (.str s) := by
      rw [encStep_get_ne _ _ (by decide) h3, encStep_get_ne _ _ (by decide) h2,
        encStep_get_ne _ _ (by decide) h1]
      exact hs
    exact encSessionOpt_get_str g0 h4
  · intro db db2 hsst
    rw [save_scheduled_task, hsave] at hsst
    simp at hsst
    rw [← hsst]
  · intro ctype params3 p3 hsc hns k hk
    unfold encryptForSave at hsc
    obtain ⟨q, hq, hrest⟩ := Option.bind_eq_some.mp hsc
    rw [hns] at hrest
    simp at hrest
    subst hrest
    exact encStep_get_ne _ k hk hq

/-- Witness for C3 (amended) on concrete s3 params with an empty session
token: non-credential fields untouched, `password` encrypted, the empty
`aws_session_token` kept as plaintext. -/
theorem claim_C3_witness :
    fieldsGet "type"
        (VF [("type", .str "do_s3_repo_backup"), ("password", .enc "p"),
             ("aws_access_key_id", .enc "AK"),
             ("aws_secret_access_key", .enc "SK"),
             ("aws_session_token", .str "")]) =
      some (.str "do_s3_repo_backup") ∧
    fieldsGet "password"
        (VF [("type", .str "do_s3_repo_backup"), ("password", .enc "p"),
             ("aws_access_key_id", .enc "AK"),
             ("aws_secret_access_key", .enc "SK"),
             ("aws_session_token", .str "")]) = some (.enc "p") ∧
    fieldsGet "aws_session_token"
        (VF [("type", .str "do_s3_repo_backup"), ("password", .enc "p"),
             ("aws_access_key_id", .enc "AK"),
             ("aws_secret_access_key", .enc "SK"),
             ("aws_session_token", .str "")]) = some (.str "") :=
  have H := claim_C3
    (VF [("type", .str "do_s3_repo_backup"), ("password", .str "p"),
         ("aws_access_key_id", .str "AK"), ("aws_secret_access_key", .str "SK"),
         ("aws_session_token", .str "")])
    (VF [("type", .str "do_s3_repo_backup"), ("password", .enc "p"),
         ("aws_access_key_id", .enc "AK"), ("aws_secret_access_key", .enc "SK"),
         ("aws_session_token", .str "")])
    (by decide)
  ⟨(H.1 "type" (by decide) (by decide) (by decide) (by decide)).trans (by decide),
   H.2.1 "p" (by decide),
   (H.2.2.2.2.1 "" (by decide)).trans (by decide)⟩

/-- After a keyed upsert the first matching document is the upserted one. -/
theorem backupFind_upsert (doc : BackupDoc) :
    ∀ l : List BackupDoc,
      backupFind doc.systemUuid doc.repo_path (backupUpsert doc l) = some doc
  | [] => by simp [backupUpsert, backupFind]
  | d :: rest => by
    by_cases hm : d.systemUuid = doc.systemUuid ∧ d.repo_path = doc.repo_path
    · simp [backupUpsert, hm, backupFind]
    · simp [backupUpsert, hm, backupFind, backupFind_upsert doc rest]

/-- C4 counterexample: a `response_local_repo_backup` whose `backup_output`
equals the stored document's is NOT skipped — the handler upserts anyway and
the stored `response_timestamp` changes (here from 0 to 1). -/
theorem claim_C4_counterexample :
    handle_response_local_repo_backup 1 "A"
        (.obj (VF [("type", .str "response_local_repo_backup"),
                   ("repo_path", .str "/r"),
                   ("backup_output",
                    .obj (VF [("message_type", .str "summary")]))]))
        [⟨"A", .str "/r", 0, .obj (VF [("message_type", .str "summary")])⟩] =
      [⟨"A", .str "/r", 1, .obj (VF [("message_type", .str "summary")])⟩] ∧
    (0 : Int) ≠ 1 :=
  ⟨by decide, by decide⟩

/-- C4 (amended): the de-duplication rule holds for snapshot responses — an
incoming snapshots list equal to the stored one leaves the store (and its
timestamp) unchanged — but `handle_response_local_repo_backup` upserts
unconditionally: any complete backup response is re-written with a fresh
`response_timestamp`, equal payload or not. -/
theorem claim_C4 (now : Int) (system_uuid : String) (message : Val)
    (store : List SnapDoc) (bstore : List BackupDoc) :
    (∀ d, snapFind system_uuid ((objGet message "repo_path").getD .null)
        store = some d →
      d.snapshots = (objGet message "snapshots").getD (.arr .nil) →
      handle_response_local_repo_snapshots now system_uuid message store = store) ∧
    (pyTruthy ((objGet message "repo_path").getD .null) = true →
      pyTruthy ((objGet message "backup_output").getD .null) = true →
      handle_response_local_repo_backup now system_uuid message bstore =
        backupUpsert ⟨system_uuid, (objGet message "repo_path").getD .null, now,
          (objGet message "backup_output").getD .null⟩ bstore ∧
      backupFind system_uuid ((objGet message "repo_path").getD .null)
          (handle_response_local_repo_backup now system_uuid message bstore) =
        some ⟨system_uuid, (objGet message "repo_path").getD .null, now,
          (objGet message "backup_output").getD .null⟩) := by
  constructor
  · intro d hfind heq
    simp [handle_response_local_repo_snapshots, hfind, heq]
  · intro h1 h2
    refine ⟨by simp [handle_response_local_repo_backup, h1, h2], ?_⟩
    have hfu := backupFind_upsert
      ⟨system_uuid, (objGet message "repo_path").getD .null, now,
        (objGet message "backup_output").getD .null⟩ bstore
    simpa [handle_response_local_repo_backup, h1, h2] using hfu

/-- Witness for C4 (amended): an unchanged snapshots payload leaves the
snapshot store untouched. -/
theorem claim_C4_witness :
    handle_response_local_repo_snapshots 9 "A"
        (.obj (VF [("type", .str "response_local_repo_snapshots"),
                   ("repo_path", .str "/r"), ("snapshots", .arr .nil)]))
        [⟨"A", .str "/r", 0, .arr .nil⟩] =
      [⟨"A", .str "/r", 0, .arr .nil⟩] :=
  (claim_C4 9 "A"
    (.obj (VF [("type", .str "response_local_repo_snapshots"),
               ("repo_path", .str "/r"), ("snapshots", .arr .nil)]))
    [⟨"A", .str "/r", 0, .arr .nil⟩] []).1
    ⟨"A", .str "/r", 0, .arr .nil⟩ (by decide) (by decide)

/-- C5: on a non-zero-exit backup or restore the agent emits the
`processing` event before spawning but then only logs the failure — no
`task_status: "failed"` event is ever emitted, although the source's own
comment (`# try except to send failed message`) and the upstream handlers
expect one.  Evaluated at a concrete failing run (`returncode = 1`): the
event list is exactly the `processing` event; no emitted event carries
`task_status = "failed"`. -/
theorem claim_C5 :
    handle_do_local_repo_backup
        (VF [("type", .str "do_local_repo_backup"), ("repo_path", .str "/r"),
             ("password", .str "p"), ("paths", strArr ["/etc"])])
        true (some ⟨1, [], "Fatal: wrong password"⟩) "t1" 7 initialDB =
      ([(.sent, .obj (VF
          [("task_uuid", .str "t1"),
           ("type", .str "response_local_repo_backup"),
           ("repo_path", .str "/r"), ("backup_output", .str ""),
           ("task_status", .str "processing")]))], initialDB) ∧
    (handle_do_local_repo_backup
        (VF [("type", .str "do_local_repo_backup"), ("repo_path", .str "/r"),
             ("password", .str "p"), ("paths", strArr ["/etc"])])
        true (some ⟨1, [], "Fatal: wrong password"⟩) "t1" 7 initialDB).1.all
      (fun ev => objGet ev.2 "task_status" != some (.str "failed")) = true ∧
    handle_do_local_repo_restore
        (VF [("type", .str "do_local_repo_restore"), ("repo_path", .str "/r"),
             ("password", .str "p"), ("snapshot_id", .str "abc"),
             ("target_path", .str "/t")])
        true (some ⟨1, [], "Fatal: wrong password"⟩) "t2" 7 initialDB =
      ([(.sent, .obj (VF
          [("task_uuid", .str "t2"),
           ("type", .str "response_local_repo_restore"),
           ("repo_path", .str "/r"), ("restore_output", .str ""),
           ("task_status", .str "processing")]))], initialDB) :=
  ⟨by decide, by decide, by decide⟩

/-- C6: an init against an already-initialized repository — non-zero exit
with the recognized stderr marker — yields the semantic already-initialized
outcome, never a transient failure: the local handler takes its dedicated
`alreadyInitialized` branch and sends nothing upstream (so the Result Store
document is untouched), and `s3_restic_helper` returns the
already-initialized string (not an error dict) and hands no message to the
data handler (so the store is untouched there too). -/
theorem claim_C6 (params : ValFields) (wsOpen : Bool) (res : JsonProc)
    (now : Int) (db : AgentDB) (hrc : res.returncode ≠ 0)
    (hstderr : strContains res.stderr "config file already exists" = true) :
    handle_init_local_repo params wsOpen (some res) now db =
      (.alreadyInitialized, [], db) ∧
    (∀ (ak sk rg bn pw org : String) (tok : Option String) (res2 : JsonProc),
      ak ≠ "" → sk ≠ "" → rg ≠ "" → bn ≠ "" → pw ≠ "" →
      res2.returncode ≠ 0 →
      strContains res2.stderr
        "repository master key and config already initialized" = true →
      s3_restic_helper ak sk rg bn pw tok org "init" .exists2 (some res2) =
        (.strResult ("Repository at " ++ ("s3:s3." ++ rg ++ ".amazonaws.com/"
           ++ bn) ++ " already initialized."), [])) := by
  constructor
  · simp [handle_init_local_repo, hrc, hstderr]
  · intro ak sk rg bn pw org tok res2 h1 h2 h3 h4 h5 hrc2 hstderr2
    simp [s3_restic_helper, h1, h2, h3, h4, h5, hrc2, hstderr2]

/-- Witness for C6 at concrete already-initialized runs. -/
theorem claim_C6_witness :
    handle_init_local_repo (VF [("repo_path", .str "/r"), ("password", .str "p")])
        true (some ⟨1, none, "Fatal: ... config file already exists ..."⟩) 4
        initialDB = (.alreadyInitialized, [], initialDB) ∧
    s3_restic_helper "ak" "sk" "rg" "bk" "p" none "orgA" "init" .exists2
        (some ⟨1, none,
          "Fatal: ... repository master key and config already initialized ..."⟩) =
      (.strResult ("Repository at " ++ ("s3:s3." ++ "rg" ++ ".amazonaws.com/"
         ++ "bk") ++ " already initialized."), []) :=
  have H := claim_C6 (VF [("repo_path", .str "/r"), ("password", .str "p")])
    true ⟨1, none, "Fatal: ... config file already exists ..."⟩ 4 initialDB
    (by decide) (by decide)
  ⟨H.1, H.2 "ak" "sk" "rg" "bk" "p" "orgA" none
    ⟨1, none, "Fatal: ... repository master key and config already initialized ..."⟩
    (by decide) (by decide) (by decide) (by decide) (by decide) (by decide)
    (by decide)⟩

/-- C7 counterexample: a scheduled snapshots response is persisted by
`update_schtask` into the `response_local_repo_snapshots` table (named after
the response's `type`), while the `schedule_ledger` table stays empty — the
deferred response does not become a schedule-ledger row. -/
theorem claim_C7_counterexample :
    (emitResponse "schedule_get_local_repo_snapshots" true
        (.obj (VF [("type", .str "response_local_repo_snapshots"),
                   ("repo_path", .str "/r"), ("snapshots", .arr .nil)])) 3
        initialDB).map
      (fun r => (r.1.1, r.2.schedule_ledger,
                 lookupAssoc "response_local_repo_snapshots" r.2.respTables)) =
      some (.savedLocally, ([] : List SchRow),
            some [⟨.obj (VF
              [("repo_path", .str "/r"), ("snapshots", .arr .nil),
               ("type", .str "response_local_repo_snapshots")]), 3⟩]) := by
  decide

/-- C7 (amended): a handler response whose originating `type` does not start
with `schedule_` is sent upstream when the channel is open; in every other
case it is persisted via `update_schtask` as a content-deduplicated row of
the `response_<kind>` table named after the response's own `type` — not of
the `schedule_ledger`, which `update_schtask` never touches.  (The init
handler is the exception: it sends unconditionally, with no local
fallback — see `handle_init_local_repo`.) -/
theorem claim_C7 (optype : String) (wsOpen : Bool) (msg : Val) (now : Int)
    (db : AgentDB) :
    (strStartsWith optype "schedule_" = false → wsOpen = true →
      emitResponse optype wsOpen msg now db = some ((.sent, msg), db)) ∧
    (strStartsWith optype "schedule_" = true ∨ wsOpen = false →
      emitResponse optype wsOpen msg now db =
        (update_schtask msg now db).map (fun d => ((.savedLocally, msg), d))) ∧
    (∀ db2, update_schtask msg now db = some db2 →
      db2.schedule_ledger = db.schedule_ledger) ∧
    (∀ fs t rows, msg = .obj fs → fieldsGet "type" fs = some (.str t) →
      lookupAssoc (pyToLower (pyReplace t " " "_")) db.respTables = some rows →
      rows.any (fun r => r.response == normalize_params msg) = true →
      update_schtask msg now db = some db) := by
  refine ⟨?_, ?_, ?_, ?_⟩
  · intro h1 h2
    simp [emitResponse, h1, h2]
  · intro h
    rcases h with h | h <;> simp [emitResponse, h]
  · intro db2 h
    unfold update_schtask at h
    split at h
    · split at h
      · cases h
        split
        · rfl
        · dsimp only
          split <;> rfl
      · cases h
    · cases h
  · intro fs t rows hm ht hrows hdup
    subst hm
    have hdup2 : ∃ x ∈ rows, x.response = normalize_params (.obj fs) := by
      simpa using hdup
    simp [update_schtask, ht, hrows, hdup2]

/-- Witness for C7 (amended): an unscheduled response on an open channel is
sent upstream with the database untouched. -/
theorem claim_C7_witness :
    emitResponse "get_local_repo_snapshots" true (.str "x") 0 initialDB =
      some ((.sent, .str "x"), initialDB) :=
  (claim_C7 "get_local_repo_snapshots" true (.str "x") 0 initialDB).1
    (by decide) rfl

/-- Inversion for `checkAgent`: any restore it produces names its own org
and agent, and requires a liveness record carrying both timestamps. -/
theorem mem_checkAgent {x : String × String × Val} {now : Int}
    {org_name agent_uuid : String} {cfg : AgentCfg} {store : List StatusDoc}
    (hx : x ∈ checkAgent now org_name agent_uuid cfg store) :
    x.1 = org_name ∧ x.2.1 = agent_uuid ∧
    ∃ doc, findStatus agent_uuid store = some doc ∧
      doc.connected_at.isSome ∧ doc.last_disconnected.isSome := by
  unfold checkAgent at hx
  split at hx
  · exact absurd hx (List.not_mem_nil x)
  next doc hdoc =>
    split at hx
    next ca dis hca hdis =>
      split at hx
      · exact absurd hx (List.not_mem_nil x)
      next thr hthr =>
        split at hx
        · exact absurd hx (List.not_mem_nil x)
        · split at hx
          · exact absurd hx (List.not_mem_nil x)
          next t hpd =>
            dsimp only at hx
            split at hx
            · unfold trigger_restore at hx
              split at hx
              · exact absurd hx (List.not_mem_nil x)
              next rc hrc =>
                simp at hx
                subst hx
                exact ⟨rfl, rfl, doc, hdoc, by simp [hca], by simp [hdis]⟩
            · exact absurd hx (List.not_mem_nil x)
    next h2 =>
      exact absurd hx (List.not_mem_nil x)

/-- C9: in one iteration of the DR monitor loop (run every 60 s after a 60 s
warm-up), an enabled agent whose liveness record carries both timestamps,
whose parsed `DR_monitoring_threshold` is exceeded by
`now − last_disconnected`, and which has a `restore_config`, gets the
restore workflow invoked with that config; an agent whose record lacks
either required timestamp is skipped (no restore is invoked for it). -/
theorem claim_C9 (now : Int) (policy : List (String × OrgData))
    (store : List StatusDoc) (org_name : String) (od : OrgData)
    (agents : List (String × AgentCfg)) (agent_uuid : String) (cfg : AgentCfg)
    (doc : StatusDoc) (ca disconnected_at : Int) (thr : String) (t : Int)
    (rc : Val)
    (hpol : (org_name, od) ∈ policy) (hda : od.dr_agents = some agents)
    (hag : (agent_uuid, cfg) ∈ agents) (hen : cfg.enabled = true)
    (hfs : findStatus agent_uuid store = some doc)
    (hca : doc.connected_at = some ca)
    (hld : doc.last_disconnected = some disconnected_at)
    (hthr : cfg.dr_monitoring_threshold = some thr) (hne : thr ≠ "")
    (hpd : parse_duration thr = some t) (hdiff : now - disconnected_at > t)
    (hrc : cfg.restore_config = some rc) :
    (org_name, agent_uuid, rc) ∈ check_dr_clients now policy store ∧
    (∀ uuid2 doc2, findStatus uuid2 store = some doc2 →
      doc2.connected_at = none ∨ doc2.last_disconnected = none →
      ∀ org2 rc2, (org2, uuid2, rc2) ∉ check_dr_clients now policy store) := by
  constructor
  · unfold check_dr_clients
    refine List.mem_flatMap.mpr ⟨(org_name, od), hpol, ?_⟩
    simp only [hda]
    refine List.mem_flatMap.mpr ⟨(agent_uuid, cfg), hag, ?_⟩
    simp only [hen, if_true]
    simp [checkAgent, hfs, hca, hld, hthr, hne, hpd, hdiff, trigger_restore, hrc]
  · intro uuid2 doc2 hfs2 hmiss org2 rc2 hmem
    unfold check_dr_clients at hmem
    obtain ⟨⟨o, od2⟩, hpo, hmem⟩ := List.mem_flatMap.mp hmem
    rcases hda2 : od2.dr_agents with _ | agents2
    · simp [hda2] at hmem
    · simp only [hda2] at hmem
      obtain ⟨⟨u, cfg2⟩, hag2, hmem⟩ := List.mem_flatMap.mp hmem
      by_cases hen2 : cfg2.enabled = true
      · simp only [hen2, if_true] at hmem
        obtain ⟨h1, h2, doc3, hfs3, hca3, hld3⟩ := mem_checkAgent hmem
        simp at h2
        subst h2
        rw [hfs2] at hfs3
        cases hfs3
        rcases hmiss with hm | hm
        · rw [hm] at hca3
          cases hca3
        · rw [hm] at hld3
          cases hld3
      · simp [hen2] at hmem

/-- Witness for C9 at the literal scenario: threshold `PT0H1M` (60 s),
disconnected 90 s ago. -/
theorem claim_C9_witness :
    ("orgA", "u1", Val.str "cfg") ∈
      check_dr_clients 100
        [("orgA", ⟨some [("u1", ⟨true, some "PT0H1M", some (.str "cfg")⟩)]⟩)]
        [⟨"u1", some 0, some 10⟩] :=
  (claim_C9 100
    [("orgA", ⟨some [("u1", ⟨true, some "PT0H1M", some (.str "cfg")⟩)]⟩)]
    [⟨"u1", some 0, some 10⟩] "orgA"
    ⟨some [("u1", ⟨true, some "PT0H1M", some (.str "cfg")⟩)]⟩
    [("u1", ⟨true, some "PT0H1M", some (.str "cfg")⟩)] "u1"
    ⟨true, some "PT0H1M", some (.str "cfg")⟩ ⟨"u1", some 0, some 10⟩ 0 10
    "PT0H1M" 60 (.str "cfg") (by decide) rfl (by decide) rfl rfl rfl rfl rfl
    (by decide) (by decide) (by decide) rfl).1
